import Mathlib

/-!
Verification of the Amalek-tgpt relay (src/api.py) against its
natural-language specification.

The Python module is shallowly embedded: pure string manipulation is
translated directly; subprocess execution, wall-clock time and the
database are abstracted as explicit oracle parameters, so every
function is a total, computable Lean definition and every observable
result of the Python code is a value of the embedding.

Conventions:
* Python `str.strip()` is modelled by `pyStrip` (remove surrounding
  whitespace characters from both ends).
* Python slicing `s[:800]` on text is modelled by `pyTake 800`
  (both count code points).
* Python `str.lower()` is modelled by `pyLower`.
* A subprocess run either completes with captured stdout/stderr text,
  or raises (timeout, launch failure); the exception's `str(e)` text is
  carried in the `excn` constructor.
-/

/-- Python `str.strip()`: drop whitespace characters from both ends. -/
def pyStrip (s : String) : String :=
  String.mk (((s.data.dropWhile Char.isWhitespace).reverse.dropWhile
    Char.isWhitespace).reverse)

/-- Python slicing `s[:n]`: the first `n` characters of `s`. -/
def pyTake (n : Nat) (s : String) : String :=
  String.mk (s.data.take n)

/-- Python `str.lower()` on the ASCII identifiers the code compares. -/
def pyLower (s : String) : String :=
  String.mk (s.data.map Char.toLower)

/-- `VALID_PROVIDERS` from src/api.py line 46. -/
def VALID_PROVIDERS : List String := ["pollinations", "sky", "phind", "koboldai", "kimi"]

/-- `GROUP_LIST = VALID_PROVIDERS[:]` from src/api.py line 47. -/
def GROUP_LIST : List String := VALID_PROVIDERS

/-- Outcome of one subprocess invocation: it either runs to completion
with captured stdout and stderr text (the exit code is also captured by
the Python code but never read on this path), or raises an exception
(timeout, binary missing, permission denied) whose `str(e)` text is
`msg`. -/
inductive ProcResult where
  | completed (stdout stderr : String)
  | excn (msg : String)
deriving DecidableEq

/-- `run_tgpt_blocking` from src/api.py lines 169-182, as a function of
the subprocess outcome.  The non-deterministic subprocess run is the
`res` argument; everything after it is the literal control flow of the
Python function: strip stdout; if empty, fall back to the stripped
stderr truncated to 800 characters wrapped as `[<provider> error] ...`,
or to `[<provider>] (no output)` when stderr is empty too; any
exception is caught and rendered as `[<provider> error] <str(e)>`. -/
def run_tgpt_blocking (provider : String) (res : ProcResult) : String :=
  match res with
  | ProcResult.completed stdout stderr =>
      let text := pyStrip stdout
      if text = "" then
        let err := pyStrip stderr
        if err ≠ "" then "[" ++ provider ++ " error] " ++ pyTake 800 err
        else "[" ++ provider ++ "] (no output)"
      else text
  | ProcResult.excn msg => "[" ++ provider ++ " error] " ++ msg

/-- `run_tgpt` from src/api.py lines 147-166, as a function of the same
subprocess outcome.  Mirrors the Python control flow: `if stderr and
not stdout:` return the wrapped stderr; otherwise `return stdout or
f"[<provider>] (no output)"`; exceptions rendered as
`[<provider> error] <str(e)>`. -/
def run_tgpt (provider : String) (res : ProcResult) : String :=
  match res with
  | ProcResult.completed rawOut rawErr =>
      let stdout := pyStrip rawOut
      let stderr := pyStrip rawErr
      if stderr ≠ "" ∧ stdout = "" then "[" ++ provider ++ " error] " ++ pyTake 800 stderr
      else if stdout ≠ "" then stdout
      else "[" ++ provider ++ "] (no output)"
  | ProcResult.excn msg => "[" ++ provider ++ " error] " ++ msg

/-- Result of one executor task as observed at the `asyncio.gather`
boundary with `return_exceptions=True` (src/api.py line 191): either
the string returned by `run_tgpt_blocking`, or an exception raised by
the task itself, carried as its `str(r)` text. -/
inductive TaskResult where
  | ok (s : String)
  | exc (msg : String)
deriving DecidableEq

/-- One entry of the list returned by `ask_providers_parallel`:
`{"provider": p, "reply": text, "timestamp": _now_str()}`
(src/api.py line 198). -/
structure ProviderReply where
  provider : String
  reply : String
  timestamp : String
deriving DecidableEq

/-- `ask_providers_parallel` from src/api.py lines 186-199.  The i-th
executor task runs `run_tgpt_blocking` for the i-th provider and the
prompt; its observed result is the oracle value `outcome i p prompt`
(an `ok` string, or an exception caught by `return_exceptions=True`).
`ts i` is the `_now_str()` wall-clock string read when the i-th entry
is assembled.  `zip(providers, results)` pairs each provider with the
result of its own task, in request order. -/
def ask_providers_parallel (outcome : Nat → String → String → TaskResult)
    (ts : Nat → String) (providers : List String) (prompt : String) :
    List ProviderReply :=
  providers.enum.map (fun pr =>
    let text := match outcome pr.1 pr.2 prompt with
      | TaskResult.ok r => r
      | TaskResult.exc m => "[" ++ pr.2 ++ " error] " ++ m
    { provider := pr.2, reply := text, timestamp := ts pr.1 })

/-- One row of the `conversations` table (src/api.py lines 26-33):
`(session_id, provider, message, type, timestamp)`; the auto-increment
id is represented by list position. -/
structure ConversationRow where
  session_id : String
  provider : String
  message : String
  mtype : String
  timestamp : String
deriving DecidableEq

/-- `save_to_db` from src/api.py lines 55-64, as a function of the
table contents.  With `USE_DB` false it returns immediately; otherwise
the INSERT either succeeds (oracle `ok` true), appending the row, or
raises, in which case the exception is caught, logged and swallowed,
leaving the table unchanged.  In every case the function returns
normally. -/
def save_to_db (useDb : Bool) (ok : Bool) (rows : List ConversationRow)
    (r : ConversationRow) : List ConversationRow :=
  if ¬ useDb then rows
  else if ok then rows ++ [r]
  else rows

/-- One dictionary with keys `provider`, `message`, `timestamp` and an
optional `type` key (defaulting to "bot" where read): the shape shared
by `fetch_history` results (no `type` key) and the `entries` built in
the `/ask` and `/brainstorm` handlers (with a `type` key).  `mtype`
models the `type` key. -/
structure DatasetEntry where
  timestamp : String
  provider : String
  message : String
  mtype : Option String
deriving DecidableEq

/-- `fetch_history` from src/api.py lines 66-78.  With `USE_DB` false
it returns `[]`; a failing SELECT is caught and also yields `[]`;
otherwise it returns the rows of the session in insertion order
(`ORDER BY id ASC`), at most `limit` of them, as
`{"provider", "message", "timestamp"}` dictionaries (the SELECT's
`DATE_FORMAT` re-renders the stored timestamp in the same
`%Y-%m-%d %H:%M:%S` shape `_now_str` wrote). -/
def fetch_history (useDb : Bool) (ok : Bool) (rows : List ConversationRow)
    (session_id : String) (limit : Nat) : List DatasetEntry :=
  if ¬ useDb then []
  else if ¬ ok then []
  else ((rows.filter (fun r => r.session_id = session_id)).take limit).map
    (fun r => { timestamp := r.timestamp, provider := r.provider,
                message := r.message, mtype := none })

/-- The `/clear-history` route handler from src/api.py lines 278-286,
as a function of the storage operation's outcome.  `op` is the combined
outcome of acquiring a cursor and running the DELETE: with the database
disabled `db_conn` is `None`, so the cursor acquisition itself raises.
Success returns the 200 message; any exception is rendered as
`(jsonify({"error": str(e)}), 500)`.  The result is the pair
(body message, HTTP status). -/
def clear_history (op : Except String Unit) : String × Nat :=
  match op with
  | Except.ok _ => ("History cleared successfully", 200)
  | Except.error e => (e, 500)

/-- Python csv writer, default dialect, QUOTE_MINIMAL: a field is
quoted iff it contains the delimiter, the quote character or a
line-terminator character. -/
def pyCsvNeedsQuote (s : String) : Bool :=
  s.data.any (fun c => c == ',' || c == '"' || c == '\r' || c == '\n')

/-- Render one csv field: quoted with inner quotes doubled when
needed, verbatim otherwise. -/
def pyCsvField (s : String) : String :=
  if pyCsvNeedsQuote s then
    "\"" ++ String.mk (s.data.flatMap (fun c => if c = '"' then ['"', '"'] else [c])) ++ "\""
  else s

/-- Separator-interleaved concatenation (Python `sep.join`). -/
def joinWith (sep : String) : List String → String
  | [] => ""
  | [x] => x
  | x :: xs => x ++ sep ++ joinWith sep xs

/-- `csv.writer(...).writerow(fields)`: comma-separated fields with the
default `\r\n` line terminator. -/
def pyCsvRow (fields : List String) : String :=
  joinWith "," (fields.map pyCsvField) ++ "\r\n"

/-- Lower-case hex digit. -/
def hexDigit (n : Nat) : Char :=
  if n < 10 then Char.ofNat (48 + n) else Char.ofNat (87 + n)

/-- `json.dumps` escaping of one character (`ensure_ascii=False`). -/
def pyJsonEscChar (c : Char) : String :=
  if c = '"' then "\\\""
  else if c = '\\' then "\\\\"
  else if c = '\n' then "\\n"
  else if c = '\r' then "\\r"
  else if c = '\t' then "\\t"
  else if c.toNat = 8 then "\\b"
  else if c.toNat = 12 then "\\f"
  else if c.toNat < 32 then
    "\\u00" ++ String.mk [hexDigit (c.toNat / 16), hexDigit (c.toNat % 16)]
  else String.mk [c]

/-- `json.dumps` of a string (`ensure_ascii=False`). -/
def pyJsonStr (s : String) : String :=
  "\"" ++ String.join (s.data.map pyJsonEscChar) ++ "\""

/-- The csv header row written by `append_dataset_lines` on first
creation of the destination (src/api.py line 91). -/
def csvHeaderLine : String :=
  pyCsvRow ["timestamp", "session_id", "provider", "message", "type"]

/-- One csv record of `append_dataset_lines` (src/api.py line 93). -/
def csvEntryLine (session_id : String) (e : DatasetEntry) : String :=
  pyCsvRow [e.timestamp, session_id, e.provider, e.message, e.mtype.getD "bot"]

/-- One JSON-lines record of `append_dataset_lines` (src/api.py lines
98-99): `json.dumps` of the object with keys in insertion order,
followed by a newline. -/
def jsonEntryLine (session_id : String) (e : DatasetEntry) : String :=
  "\x7b\"timestamp\": " ++ pyJsonStr e.timestamp ++
  ", \"session_id\": " ++ pyJsonStr session_id ++
  ", \"provider\": " ++ pyJsonStr e.provider ++
  ", \"message\": " ++ pyJsonStr e.message ++
  ", \"type\": " ++ pyJsonStr (e.mtype.getD "bot") ++ "\x7d\n"

/-- The batch of records one `append_dataset_lines` call adds for a
given format (everything it writes except the csv header). -/
def linesBatch (session_id : String) (fmt : String) (entries : List DatasetEntry) : String :=
  if fmt = "csv" then String.join (entries.map (csvEntryLine session_id))
  else String.join (entries.map (jsonEntryLine session_id))

/-- `append_dataset_lines` from src/api.py lines 85-99, as a function
of the destination file's state (`none` = does not exist).  Opening
with mode "a" appends to the existing content; the csv header row is
written first iff the file did not exist; the result is the file's new
content. -/
def append_dataset_lines (file : Option String) (session_id : String)
    (fmt : String) (entries : List DatasetEntry) : String :=
  if fmt = "csv" then
    let start := if file.isSome then file.getD "" else file.getD "" ++ csvHeaderLine
    start ++ String.join (entries.map (csvEntryLine session_id))
  else
    file.getD "" ++ String.join (entries.map (jsonEntryLine session_id))

/-- `json.dumps` of one dialog-list item (src/api.py lines 102, 110,
114): the `fetch_history` dictionaries carry no `type` key, the
handler-built `entries` do. -/
def jsonDialogItem (e : DatasetEntry) : String :=
  "\x7b\"provider\": " ++ pyJsonStr e.provider ++
  ", \"message\": " ++ pyJsonStr e.message ++
  ", \"timestamp\": " ++ pyJsonStr e.timestamp ++
  (match e.mtype with
   | some t => ", \"type\": " ++ pyJsonStr t
   | none => "") ++ "\x7d"

/-- `json.dumps` of a dialog list. -/
def jsonDialogList (dialog : List DatasetEntry) : String :=
  "[" ++ joinWith ", " (dialog.map jsonDialogItem) ++ "]"

/-- `append_dataset_dialog` from src/api.py lines 101-114, as a
function of the destination file's state. -/
def append_dataset_dialog (file : Option String) (session_id : String)
    (fmt : String) (dialog : List DatasetEntry) (saved_at : String) : String :=
  if fmt = "csv" then
    let start := if file.isSome then file.getD ""
      else file.getD "" ++ pyCsvRow ["session_id", "saved_at", "dialog_json"]
    start ++ pyCsvRow [session_id, saved_at, jsonDialogList dialog]
  else
    file.getD "" ++ "\x7b\"session_id\": " ++ pyJsonStr session_id ++
      ", \"dialog\": " ++ jsonDialogList dialog ++
      ", \"saved_at\": " ++ pyJsonStr saved_at ++ "\x7d\n"

/-- `dataset_path` from src/api.py lines 80-83.  `epoch` is the
`int(time.time())` value read when no filename is given; `ddir` is
`DATASET_DIR`. -/
def dataset_path (ddir : String) (filename : String) (epoch : Nat) (fmt : String) : String :=
  let base := if filename = "" then "dataset_" ++ toString epoch else filename
  let safe := String.mk ((pyStrip base).data.map (fun c => if c = '/' then '_' else c))
  let ext := if fmt = "csv" then ".csv" else ".json"
  ddir ++ "/" ++ safe ++ ext

/-- Python `x or d` for an optional string field: both a missing field
(`None`) and an empty string are falsy and replaced by the default. -/
def pyOr (x : Option String) (d : String) : String :=
  match x with
  | none => d
  | some s => if s = "" then d else s

/-- The `save_dataset` flag parse (src/api.py line 219):
`str(...).strip() in ("1","true","True","yes","on")`. -/
def truthyFlag (s : String) : Bool :=
  (["1", "true", "True", "yes", "on"] : List String).contains s

/-- The form fields of an `/ask` request (`request.form.get` returns
`none` for a missing field) plus whether a file part is attached. -/
structure AskReq where
  session_id : Option String
  provider : Option String
  query : Option String
  save_dataset : Option String
  save_format : Option String
  save_shape : Option String
  filename : Option String
  hasFile : Bool

/-- The JSON response of the `/ask` handler: the inline
`{"error": ...}` rejection (HTTP 200), a flattened single reply, or a
`{"multi": [...]}` list, the latter two optionally carrying a
`saved_to` path. -/
inductive AskResp where
  | err (msg : String)
  | single (r : ProviderReply) (savedTo : Option String)
  | multi (rs : List ProviderReply) (savedTo : Option String)
deriving DecidableEq

/-- The mutable state a request touches: the `conversations` table and
the dataset directory's files (path to content; `none` = absent). -/
structure World where
  rows : List ConversationRow
  fs : String → Option String

/-- The non-deterministic environment of one request: whether the
database is enabled, per-INSERT success and `_now_str()` oracles, the
SELECT-success oracle, the per-task subprocess outcome and timestamp
oracles, the dialog-snapshot `_now_str()`, the `int(time.time())`
fallback and the dataset directory. -/
structure Env where
  useDb : Bool
  insOk : Nat → Bool
  dbTs : Nat → String
  fetchOk : Bool
  outcome : Nat → String → String → TaskResult
  taskTs : Nat → String
  saveAt : String
  epoch : Nat
  ddir : String

/-- Overwrite one file of the file system with new content. -/
def fsWrite (fs : String → Option String) (p c : String) : String → Option String :=
  fun q => if q = p then some c else fs q

/-- The reply-recording loop of the handlers (src/api.py lines 250-256
and 312-318): one `save_to_db` call per reply, in order; `base` counts
the `save_to_db` calls made earlier in the same request. -/
def save_replies (env : Env) (base : Nat) (session_id mtype : String)
    (rows : List ConversationRow) (replies : List ProviderReply) :
    List ConversationRow :=
  replies.enum.foldl (fun acc pr =>
    save_to_db env.useDb (env.insOk (base + pr.1)) acc
      ⟨session_id, pr.2.provider, pr.2.reply, mtype, env.dbTs (base + pr.1)⟩) rows

/-- The guidance string appended to the query (src/api.py lines
240-243). -/
def ask_guidance : String :=
  "Please answer clearly. If code is needed include it. Avoid repeating earlier content verbatim. If you refer to another bot, name it. Keep replies focused."

/-- The post-validation body of the `/ask` handler (src/api.py lines
239-276): build the prompt, fan out, record bot replies, optionally
append to the dataset file (a full-dialog snapshot from the database —
or, with the database disabled, the fresh entries — or the per-message
records), and shape the response, flattened when exactly one reply. -/
def ask_handler_run (env : Env) (w : World) (session_id : String)
    (providers : List String) (query : String) (save_dataset : Bool)
    (save_format save_shape filename : String) (base : Nat) : AskResp × World :=
  let prompt := if query = "" then query else query ++ "\n\n" ++ ask_guidance
  let replies := ask_providers_parallel env.outcome env.taskTs providers prompt
  let entries := replies.map (fun it =>
    ({ timestamp := it.timestamp, provider := it.provider,
       message := it.reply, mtype := some "bot" } : DatasetEntry))
  let rows2 := save_replies env base session_id "bot" w.rows replies
  let fp := dataset_path env.ddir filename env.epoch save_format
  let saved := if save_dataset then some fp else none
  let fs2 :=
    if save_dataset then
      if save_shape = "dialog" then
        let dialog := if env.useDb then fetch_history env.useDb env.fetchOk rows2 session_id 500
          else entries
        fsWrite w.fs fp (append_dataset_dialog (w.fs fp) session_id save_format dialog env.saveAt)
      else
        fsWrite w.fs fp (append_dataset_lines (w.fs fp) session_id save_format entries)
    else w.fs
  let resp := match replies with
    | [r] => AskResp.single r saved
    | _ => AskResp.multi replies saved
  (resp, { rows := rows2, fs := fs2 })

/-- The `/ask` route handler from src/api.py lines 213-276: parse the
form, reject an empty query, record the user message, resolve the
provider — `"group"` fans out to `GROUP_LIST`, a valid identifier to
itself, anything else is rejected as `{"error": "invalid provider
\x27...\x27"}` — and run the fan-out body. -/
def ask_handler (env : Env) (w : World) (req : AskReq) : AskResp × World :=
  let session_id := pyStrip (pyOr req.session_id "default")
  let provider := pyStrip (pyOr req.provider "phind")
  let query := pyStrip (pyOr req.query "")
  let save_dataset := truthyFlag (pyStrip (req.save_dataset.getD "0"))
  let save_format := pyLower (pyStrip (pyOr req.save_format "csv"))
  let save_shape := pyLower (pyStrip (pyOr req.save_shape "lines"))
  let filename := pyStrip (pyOr req.filename "")
  if query = "" ∧ ¬ req.hasFile then (AskResp.err "empty query", w)
  else
    let rows1 := if query ≠ "" then
        save_to_db env.useDb (env.insOk 0) w.rows
          ⟨session_id, "user", query, "user", env.dbTs 0⟩
      else w.rows
    let base := if query ≠ "" then 1 else 0
    let w1 : World := { rows := rows1, fs := w.fs }
    if provider = "group" then
      ask_handler_run env w1 session_id GROUP_LIST query save_dataset
        save_format save_shape filename base
    else if provider ∈ VALID_PROVIDERS then
      ask_handler_run env w1 session_id [provider] query save_dataset
        save_format save_shape filename base
    else
      (AskResp.err ("invalid provider \x27" ++ provider ++ "\x27"), w1)

/-- The invocation replies carried by an `/ask` response, `none` for a
rejection. -/
def askRespReplies : AskResp → Option (List ProviderReply)
  | AskResp.err _ => none
  | AskResp.single r _ => some [r]
  | AskResp.multi rs _ => some rs

/-- The provider-resolution step of the `/brainstorm` handler
(src/api.py lines 299-305), applied to the posted provider list (the
handler has already replaced a missing or empty `providers` field by
`["group"]`): the literal `["group"]` resolves to `GROUP_LIST`;
otherwise unknown identifiers are filtered out and, if none remain,
`GROUP_LIST` is substituted.  There is no rejection path. -/
def brainstorm_resolve_providers (providers : List String) : List String :=
  if providers = ["group"] ∨ (providers.length = 1 ∧ providers.headD "" = "group") then
    GROUP_LIST
  else
    let ps := providers.filter (fun p => decide (p ∈ VALID_PROVIDERS))
    if ps = [] then GROUP_LIST else ps

/-- The invocation step of `/brainstorm` (src/api.py lines 299-309):
the resolved provider list is passed unconditionally to
`ask_providers_parallel` with the brainstorm prompt (built by
`build_brainstorm_prompt` from the posted messages; abstracted here as
the `prompt` argument). -/
def brainstorm_replies (outcome : Nat → String → String → TaskResult)
    (ts : Nat → String) (providers : List String) (prompt : String) :
    List ProviderReply :=
  ask_providers_parallel outcome ts (brainstorm_resolve_providers providers) prompt

/-- A concrete environment for witnesses: database enabled, every
INSERT succeeds, every task returns "reply". -/
def sampleEnv : Env :=
  { useDb := true, insOk := fun _ => true,
    dbTs := fun _ => "2024-01-01 00:00:00", fetchOk := true,
    outcome := fun _ _ _ => TaskResult.ok "reply",
    taskTs := fun _ => "2024-01-01 00:00:00",
    saveAt := "2024-01-01 00:00:00", epoch := 0, ddir := "datasets" }

/-- A concrete initial state for witnesses: empty table, no files. -/
def sampleWorld : World := { rows := [], fs := fun _ => none }

/-- A concrete `/ask` request naming an unknown provider. -/
def badProviderReq : AskReq :=
  { session_id := some "s1", provider := some "doesnotexist",
    query := some "hi", save_dataset := none, save_format := none,
    save_shape := none, filename := none, hasFile := false }

/-- C1: for every non-empty provider list and prompt,
`ask_providers_parallel` returns exactly one entry per requested
provider, in request order: the list of `provider` fields of the output
equals the input list, so the output has length `len(P)` and its i-th
entry carries provider `P[i]` together with a reply string and a
timestamp, regardless of which tasks error or finish first (the
`outcome` oracle is universally quantified). -/
theorem ask_providers_parallel_one_reply_per_provider
    (outcome : Nat → String → String → TaskResult) (ts : Nat → String)
    (providers : List String) (prompt : String)
    (_hne : providers ≠ []) :
    (ask_providers_parallel outcome ts providers prompt).map ProviderReply.provider
      = providers ∧
    (ask_providers_parallel outcome ts providers prompt).length
      = providers.length := by
  constructor
  · unfold ask_providers_parallel
    rw [List.map_map]
    have : (ProviderReply.provider ∘ fun pr : Nat × String =>
        ({ provider := pr.2,
           reply := match outcome pr.1 pr.2 prompt with
             | TaskResult.ok r => r
             | TaskResult.exc m => "[" ++ pr.2 ++ " error] " ++ m,
           timestamp := ts pr.1 } : ProviderReply)) = Prod.snd := rfl
    rw [this, List.enum_map_snd]
  · unfold ask_providers_parallel
    rw [List.length_map, List.enum_length]

/-- Witness for C1 at a concrete input. -/
theorem ask_providers_parallel_one_reply_per_provider_witness :
    (ask_providers_parallel (fun _ _ _ => TaskResult.ok "hello")
        (fun _ => "2024-01-01 00:00:00") ["sky", "phind"] "hi").map
        ProviderReply.provider = ["sky", "phind"] ∧
    (ask_providers_parallel (fun _ _ _ => TaskResult.ok "hello")
        (fun _ => "2024-01-01 00:00:00") ["sky", "phind"] "hi").length = 2 :=
  ask_providers_parallel_one_reply_per_provider
    (fun _ _ _ => TaskResult.ok "hello") (fun _ => "2024-01-01 00:00:00")
    ["sky", "phind"] "hi" (by decide)

/-- C2: if the subprocess completes within the timeout and its stdout
is non-empty after stripping, `run_tgpt_blocking` returns exactly the
stripped stdout, for every stderr content (the exit code is never read
on this path in the source, so it cannot influence the result). -/
theorem run_tgpt_blocking_output_wins
    (provider rawOut rawErr : String) (h : pyStrip rawOut ≠ "") :
    run_tgpt_blocking provider (ProcResult.completed rawOut rawErr)
      = pyStrip rawOut := by
  unfold run_tgpt_blocking
  simp [h]

/-- Witness for C2 at a concrete input with noisy stderr. -/
theorem run_tgpt_blocking_output_wins_witness :
    pyStrip "  hi there " ≠ "" ∧
    run_tgpt_blocking "sky" (ProcResult.completed "  hi there " "warning: junk")
      = "hi there" :=
  ⟨by decide, (run_tgpt_blocking_output_wins "sky" "  hi there " "warning: junk"
    (by decide)).trans (by decide)⟩

/-- C3: if the subprocess completes with empty (stripped) stdout, then
with non-empty stripped stderr the result is `"[X error] "` followed by
the first 800 characters of the stripped stderr, and with empty stderr
it is exactly `"[X] (no output)"`. -/
theorem run_tgpt_blocking_empty_output
    (provider rawOut rawErr : String) (h : pyStrip rawOut = "") :
    (pyStrip rawErr ≠ "" →
      run_tgpt_blocking provider (ProcResult.completed rawOut rawErr)
        = "[" ++ provider ++ " error] " ++ pyTake 800 (pyStrip rawErr)) ∧
    (pyStrip rawErr = "" →
      run_tgpt_blocking provider (ProcResult.completed rawOut rawErr)
        = "[" ++ provider ++ "] (no output)") := by
  constructor
  · intro he
    unfold run_tgpt_blocking
    simp [h, he]
  · intro he
    unfold run_tgpt_blocking
    simp [h, he]

/-- Witness for C3 at concrete inputs covering both branches. -/
theorem run_tgpt_blocking_empty_output_witness :
    (pyStrip " " = "" ∧
      run_tgpt_blocking "phind" (ProcResult.completed " " " boom ")
        = "[phind error] boom") ∧
    (pyStrip " " = "" ∧
      run_tgpt_blocking "phind" (ProcResult.completed " " "")
        = "[phind] (no output)") :=
  ⟨⟨by decide, ((run_tgpt_blocking_empty_output "phind" " " " boom "
      (by decide)).1 (by decide)).trans (by decide)⟩,
   ⟨by decide, (run_tgpt_blocking_empty_output "phind" " " ""
      (by decide)).2 (by decide)⟩⟩

/-- C4: the invoker is total at its boundary by construction (it is a
Lean function into `String`, mirroring the blanket `except` clause of
the source), and every exceptional outcome — timeout or launch failure,
both reaching the `except` clause — yields `"[X error] "` followed by
the exception text, hence a string containing (indeed starting with)
the substring `"[X error]"`. -/
theorem run_tgpt_blocking_exception_rendering (provider msg : String) :
    run_tgpt_blocking provider (ProcResult.excn msg)
      = "[" ++ provider ++ " error] " ++ msg ∧
    ∃ rest, run_tgpt_blocking provider (ProcResult.excn msg)
      = ("[" ++ provider ++ " error]") ++ rest := by
  refine ⟨rfl, ⟨" " ++ msg, ?_⟩⟩
  show "[" ++ provider ++ " error] " ++ msg
      = "[" ++ provider ++ " error]" ++ (" " ++ msg)
  simp only [String.append_assoc]
  rfl

/-- C9: the asyncio-based `run_tgpt` and its thread-pool fallback
`run_tgpt_blocking` render every subprocess outcome identically: the
same captured stdout/stderr pair, or the same exception, produces the
same reply string. -/
theorem run_tgpt_equiv_run_tgpt_blocking (provider : String) (res : ProcResult) :
    run_tgpt provider res = run_tgpt_blocking provider res := by
  cases res with
  | completed rawOut rawErr =>
      unfold run_tgpt run_tgpt_blocking
      by_cases hs : pyStrip rawOut = "" <;> by_cases he : pyStrip rawErr = "" <;>
        simp [hs, he]
  | excn msg => rfl

/-- C5 counterexample: the `/brainstorm` handler does not reject a
request naming only an unknown provider identifier — it resolves the
list to the full `GROUP_LIST` and invokes all five providers, so the
claimed "structured rejection and no invocation on every caller-facing
entry point" fails on `/brainstorm`. -/
theorem brainstorm_unknown_provider_not_rejected :
    brainstorm_resolve_providers ["doesnotexist"]
      = ["pollinations", "sky", "phind", "koboldai", "kimi"] ∧
    (brainstorm_replies (fun _ _ _ => TaskResult.ok "reply")
        (fun _ => "2024-01-01 00:00:00") ["doesnotexist"] "p").length = 5 := by
  constructor <;> decide

/-- C5 amended: `/ask` rejects an unknown provider identifier (other
than the `"group"` fan-out keyword) with a structured `invalid
provider` error, producing no invocation replies and touching no
dataset file; `/brainstorm` never rejects — it always resolves to a
non-empty list of valid providers (dropping unknown identifiers and
substituting the full group when none remain) and invokes them. -/
theorem ask_rejects_unknown_provider_brainstorm_falls_back
    (env : Env) (w : World) (req : AskReq)
    (hq : pyStrip (pyOr req.query "") ≠ "")
    (hp : pyStrip (pyOr req.provider "phind") ∉ VALID_PROVIDERS)
    (hg : pyStrip (pyOr req.provider "phind") ≠ "group") :
    ((ask_handler env w req).1
        = AskResp.err ("invalid provider \x27" ++ pyStrip (pyOr req.provider "phind") ++ "\x27") ∧
     askRespReplies (ask_handler env w req).1 = none ∧
     (ask_handler env w req).2.fs = w.fs) ∧
    (∀ ps : List String, brainstorm_resolve_providers ps ≠ [] ∧
      ∀ p ∈ brainstorm_resolve_providers ps, p ∈ VALID_PROVIDERS) := by
  constructor
  · have hmain : (ask_handler env w req).1
        = AskResp.err ("invalid provider \x27" ++ pyStrip (pyOr req.provider "phind") ++ "\x27") ∧
        (ask_handler env w req).2.fs = w.fs := by
      unfold ask_handler
      simp [hq, hp, hg]
    exact ⟨hmain.1, by rw [hmain.1]; rfl, hmain.2⟩
  · intro ps
    unfold brainstorm_resolve_providers
    split
    · exact ⟨by decide, fun p hp => hp⟩
    · show (if List.filter (fun p => decide (p ∈ VALID_PROVIDERS)) ps = []
            then GROUP_LIST
            else List.filter (fun p => decide (p ∈ VALID_PROVIDERS)) ps) ≠ [] ∧
        ∀ p ∈ (if List.filter (fun p => decide (p ∈ VALID_PROVIDERS)) ps = []
            then GROUP_LIST
            else List.filter (fun p => decide (p ∈ VALID_PROVIDERS)) ps),
          p ∈ VALID_PROVIDERS
      split
      · exact ⟨by decide, fun p hp => hp⟩
      · rename_i hne
        refine ⟨hne, fun p hp => ?_⟩
        have h2 : (fun q => decide (q ∈ VALID_PROVIDERS)) p = true :=
          (List.mem_filter.mp hp).2
        exact of_decide_eq_true h2

/-- Witness for C5 (amended) at a concrete request. -/
theorem ask_rejects_unknown_provider_brainstorm_falls_back_witness :
    ((ask_handler sampleEnv sampleWorld badProviderReq).1
        = AskResp.err ("invalid provider \x27" ++ pyStrip (pyOr badProviderReq.provider "phind") ++ "\x27") ∧
     askRespReplies (ask_handler sampleEnv sampleWorld badProviderReq).1 = none ∧
     (ask_handler sampleEnv sampleWorld badProviderReq).2.fs = sampleWorld.fs) ∧
    (∀ ps : List String, brainstorm_resolve_providers ps ≠ [] ∧
      ∀ p ∈ brainstorm_resolve_providers ps, p ∈ VALID_PROVIDERS) :=
  ask_rejects_unknown_provider_brainstorm_falls_back sampleEnv sampleWorld
    badProviderReq (by decide) (by decide) (by decide)

/-- C6 counterexample: the `/clear-history` handler does surface a
storage failure to the caller — an unavailable backend (with the
database disabled, `db_conn` is `None` and the cursor acquisition
raises) is rendered as a 500 error response, not a normal result. -/
theorem clear_history_surfaces_storage_failure :
    clear_history (Except.error "\x27NoneType\x27 object has no attribute \x27cursor\x27")
      = ("\x27NoneType\x27 object has no attribute \x27cursor\x27", 500) ∧
    (clear_history (Except.error "\x27NoneType\x27 object has no attribute \x27cursor\x27")).2
      ≠ 200 := by
  constructor
  · rfl
  · decide

/-- C6 amended: persistence failures in the append and fetch paths are
contained — a failing or disabled `save_to_db` is a logged no-op that
returns normally with the table unchanged, and `fetch_history` returns
`[]` rather than raising — but clearing a session's history is the
exception: `clear_history` surfaces a storage failure as a 500 error
response. -/
theorem persistence_failures_contained_except_clear :
    (∀ (rows : List ConversationRow) (r : ConversationRow),
      save_to_db true false rows r = rows) ∧
    (∀ (ok : Bool) (rows : List ConversationRow) (r : ConversationRow),
      save_to_db false ok rows r = rows) ∧
    (∀ (rows : List ConversationRow) (sid : String) (lim : Nat),
      fetch_history true false rows sid lim = []) ∧
    (∀ (ok : Bool) (rows : List ConversationRow) (sid : String) (lim : Nat),
      fetch_history false ok rows sid lim = []) ∧
    (∀ e : String, clear_history (Except.error e) = (e, 500)) := by
  refine ⟨fun rows r => ?_, fun ok rows r => ?_, fun rows sid lim => ?_,
    fun ok rows sid lim => ?_, fun e => rfl⟩ <;>
    simp [save_to_db, fetch_history]

/-- C7: `append_dataset_lines` is append-only and writes the csv
header exactly once, only when the destination did not previously
exist: one run leaves the prior content, then the header iff the file
was absent and the format is csv, then the batch of records; a second
identical run appends exactly one more identical batch and no second
header. -/
theorem append_dataset_lines_append_only_header_once
    (file : Option String) (sid fmt : String) (entries : List DatasetEntry) :
    append_dataset_lines file sid fmt entries
      = file.getD "" ++ ((if fmt = "csv" ∧ file = none then csvHeaderLine else "")
          ++ linesBatch sid fmt entries) ∧
    append_dataset_lines (some (append_dataset_lines file sid fmt entries)) sid fmt entries
      = file.getD "" ++ ((if fmt = "csv" ∧ file = none then csvHeaderLine else "")
          ++ (linesBatch sid fmt entries ++ linesBatch sid fmt entries)) := by
  by_cases h : fmt = "csv" <;>
    cases file <;>
      simp [append_dataset_lines, linesBatch, h, String.append_assoc]

/-- C8: storage availability does not interfere with reply content —
the same `/ask` request against the same initial state, with the same
subprocess outcomes, produces the same invocation replies whether
`USE_DB` is true or false; and with storage disabled `fetch_history`
returns `[]` for every session and limit rather than raising. -/
theorem ask_storage_noninterference :
    (∀ (e : Env) (w : World) (req : AskReq),
      askRespReplies (ask_handler { e with useDb := true } w req).1
        = askRespReplies (ask_handler { e with useDb := false } w req).1) ∧
    (∀ (ok : Bool) (rows : List ConversationRow) (sid : String) (lim : Nat),
      fetch_history false ok rows sid lim = []) := by
  constructor
  · intro e w req
    simp only [ask_handler]
    split_ifs <;> rfl
  · intro ok rows sid lim
    simp [fetch_history]

/-- C10: rejecting an `/ask` request for an unknown provider is not
atomic with respect to storage — with the database enabled and the
INSERT succeeding, the user's message has already been appended (via
`save_to_db` with type "user") by the time the rejection is returned,
so the rejected request still changes persistent state. -/
theorem ask_invalid_provider_still_persists_user_message
    (env : Env) (w : World) (req : AskReq)
    (hdb : env.useDb = true) (hins : env.insOk 0 = true)
    (hq : pyStrip (pyOr req.query "") ≠ "")
    (hp : pyStrip (pyOr req.provider "phind") ∉ VALID_PROVIDERS)
    (hg : pyStrip (pyOr req.provider "phind") ≠ "group") :
    (ask_handler env w req).1
      = AskResp.err ("invalid provider \x27" ++ pyStrip (pyOr req.provider "phind") ++ "\x27") ∧
    (ask_handler env w req).2.rows
      = w.rows ++ [⟨pyStrip (pyOr req.session_id "default"), "user",
          pyStrip (pyOr req.query ""), "user", env.dbTs 0⟩] := by
  unfold ask_handler
  simp [hq, hp, hg, save_to_db, hdb, hins]

/-- Witness for C10 at a concrete request: the rejected request leaves
the user row in the table. -/
theorem ask_invalid_provider_still_persists_user_message_witness :
    (ask_handler sampleEnv sampleWorld badProviderReq).1
      = AskResp.err "invalid provider \x27doesnotexist\x27" ∧
    (ask_handler sampleEnv sampleWorld badProviderReq).2.rows
      = [⟨"s1", "user", "hi", "user", "2024-01-01 00:00:00"⟩] := by
  have h := ask_invalid_provider_still_persists_user_message sampleEnv
    sampleWorld badProviderReq rfl rfl (by decide) (by decide) (by decide)
  exact ⟨h.1.trans (by decide), h.2.trans (by decide)⟩
